import Mathlib

set_option linter.unusedVariables false

/-!
Verification of the `synapse_user_restrictions` permission-decision engine.

We shallowly embed the two Python source modules:

* `synapse_user_restrictions/module.py` — the rule engine (`_apply_rules`),
  the invite authorizer (`callback_user_may_invite`), the join authorizer
  (`callback_user_may_join_room`) and domain extraction (`_get_domain`);
* `synapse_user_restrictions/config.py` — the restriction gate
  (`check_event_allowed`, `check_can_deactivate_user`) and its
  `parse_config`.

Python exceptions are modelled with `Except`; Python dicts with association
lists looked up by `List.lookup`; Python sets of strings with `Finset String`
(for parsed config) or `List String` with `∈` membership (for load-time
configuration values, where only membership is ever used).
-/

namespace UserRestrictions

/-- Modelled from the spec: the `RuleResult` tri-state imported by
`module.py` from the missing part of `config.py`.  Spec §3:
"`RuleResult` — tri-state: `Allow | Deny | NoDecision`". -/
inductive RuleResult where
  | Allow : RuleResult
  | Deny : RuleResult
  | NoDecision : RuleResult
deriving DecidableEq, Repr

/-- Modelled from the spec: the `Rule` abstraction imported by `module.py`
from the missing part of `config.py`.  Spec §3: "conceptually
`(predicate over (user_id, permission)) -> RuleResult`.  A rule is pure and
stateless once constructed."  We model a rule by that predicate; `r u p`
stands for the Python `rule.apply(user_id, permission)`. -/
def Rule : Type := String → String → RuleResult

/-- Modelled from the spec: permission identifier `CREATE_ROOM`
(constant imported by `module.py`; value from the Permission Catalog of
spec §3 / claim catalog). -/
def CREATE_ROOM : String := "create_room"

/-- Modelled from the spec: permission identifier `INVITE`. -/
def INVITE : String := "invite"

/-- Modelled from the spec: permission identifier `RECEIVE_INVITES`. -/
def RECEIVE_INVITES : String := "receive_invites"

/-- Modelled from the spec: permission identifier `RECEIVE_ALL_INVITES`. -/
def RECEIVE_ALL_INVITES : String := "receive_all_invites"

/-- Modelled from the spec: permission identifier `INVITE_ALL`. -/
def INVITE_ALL : String := "invite_all"

/-- Modelled from the spec: permission identifier `JOIN_ROOM`. -/
def JOIN_ROOM : String := "join_room"

/-- Modelled from the spec: `ALL_UNDERSTOOD_PERMISSIONS`, the closed
Permission Catalog imported by `module.py` (spec §2, §3). -/
def ALL_UNDERSTOOD_PERMISSIONS : List String :=
  [CREATE_ROOM, INVITE, RECEIVE_INVITES, RECEIVE_ALL_INVITES, INVITE_ALL, JOIN_ROOM]

/-- The load-time configuration of `UserRestrictionsModule`
(spec §3 `UserRestrictionsModuleConfig`): an ordered rule list, the
`default_deny` permission set and the `local_homeservers` domain set.
Only membership of the two sets is ever consulted, so they are kept as
lists with `∈`. -/
structure UserRestrictionsModuleConfig where
  rules : List Rule
  default_deny : List String
  local_homeservers : List String

/-- Python exceptions that can escape the `UserRestrictionsModule`
callbacks: the `ValueError` raised by `_apply_rules` for an unrecognized
permission, and the `IndexError` raised by `_get_domain` on a user ID
without a `:`. -/
inductive PyErr where
  | valueError : PyErr
  | indexError : PyErr
deriving DecidableEq, Repr

/-- The `for rule in self._config.rules` loop of `_apply_rules` together
with its default fallthrough: first `Allow` gives `true`, first `Deny`
gives `false`, and if no rule decides the result is `false` exactly when
the permission is in `default_deny`. -/
def evalRulesDefault (rules : List Rule) (default_deny : List String)
    (user_id permission : String) : Bool :=
  match rules with
  | [] => if permission ∈ default_deny then false else true
  | r :: rs =>
    match r user_id permission with
    | RuleResult.Allow => true
    | RuleResult.Deny => false
    | RuleResult.NoDecision => evalRulesDefault rs default_deny user_id permission

/-- Embeds `UserRestrictionsModule._apply_rules`: validate the permission against
the catalog (raising `ValueError` otherwise), then run the rule loop with
the `default_deny` fallthrough. -/
def applyRules (cfg : UserRestrictionsModuleConfig)
    (user_id permission : String) : Except PyErr Bool :=
  if permission ∈ ALL_UNDERSTOOD_PERMISSIONS then
    Except.ok (evalRulesDefault cfg.rules cfg.default_deny user_id permission)
  else
    Except.error PyErr.valueError

/-- Everything after the first `:` of the character list, or `none` when
there is no `:` (the `[1]` indexing of `user_id.split(":", 1)` raises
`IndexError` in that case). -/
def afterFirstColon : List Char → Option (List Char)
  | [] => none
  | c :: cs => if c = ':' then some cs else afterFirstColon cs

/-- Embeds `UserRestrictionsModule._get_domain`:
`user_id.split(":", 1)[1].lower()` — the substring after the first `:`,
lowercased (ASCII lowering, as all identifiers in play are ASCII);
`none` models the `IndexError` when the user ID has no `:`. -/
def getDomain (user_id : String) : Option String :=
  match afterFirstColon user_id.data with
  | some cs => some (String.mk (cs.map Char.toLower))
  | none => none

/-- Embeds `UserRestrictionsModule.callback_user_may_invite`: the four-step
short-circuit invite decision tree.  `room_id` is accepted but unused,
exactly as in the source. -/
def mayInvite (cfg : UserRestrictionsModuleConfig)
    (inviter invitee room_id : String) : Except PyErr Bool :=
  match applyRules cfg inviter INVITE with
  | Except.error e => Except.error e
  | Except.ok b1 =>
    if !b1 then Except.ok false
    else
      match applyRules cfg inviter INVITE_ALL with
      | Except.error e => Except.error e
      | Except.ok b2 =>
        if b2 then Except.ok true
        else
          match applyRules cfg invitee RECEIVE_ALL_INVITES with
          | Except.error e => Except.error e
          | Except.ok b3 =>
            if b3 then Except.ok true
            else
              match applyRules cfg invitee RECEIVE_INVITES with
              | Except.error e => Except.error e
              | Except.ok b4 =>
                if b4 then
                  match getDomain inviter with
                  | some d =>
                    Except.ok (if d ∈ cfg.local_homeservers then true else false)
                  | none => Except.error PyErr.indexError
                else Except.ok false

/-- An `m.room.member` state event as seen by the join authorizer: its
`content` dict. -/
structure MemberEvent where
  content : List (String × String)
deriving DecidableEq, Repr

/-- A room-state map: `(event_type, state_key)` pairs to events, as
returned by `api.get_room_state`. -/
def RoomState : Type := List ((String × String) × MemberEvent)

/-- Outcome of the external `await self._api.get_room_state(room_id)`
call: either the state map, or a raised exception (any reason). -/
def StateLookup : Type := Except Unit RoomState

/-- Embeds `UserRestrictionsModule.callback_user_may_join_room`: allow
immediately when the state lookup succeeds and the user's member event
has membership `"join"`; swallow a lookup failure; otherwise allow iff
`_apply_rules(user, JOIN_ROOM)` or `is_invited`. -/
def mayJoinRoom (cfg : UserRestrictionsModuleConfig) (st : StateLookup)
    (user room_id : String) (is_invited : Bool) : Except PyErr Bool :=
  let joined : Bool :=
    match st with
    | Except.error _ => false
    | Except.ok state =>
      match state.lookup ("m.room.member", user) with
      | some ev =>
        match ev.content.lookup "membership" with
        | some m => m = "join"
        | none => false
      | none => false
  if joined then Except.ok true
  else
    match applyRules cfg user JOIN_ROOM with
    | Except.error e => Except.error e
    | Except.ok has_join_room => Except.ok (has_join_room || is_invited)

end UserRestrictions

namespace RestrictionModule

/-- A Python value as it may appear in the raw module configuration dict
handed to `RestrictionModule.parse_config`. -/
inductive PyValue where
  | str : String → PyValue
  | int : Int → PyValue
  | bool : Bool → PyValue
  | list : List PyValue → PyValue
  | none : PyValue
deriving Repr

/-- The raw configuration dict (`Dict[str, Any]`). -/
def ConfigDict : Type := List (String × PyValue)

/-- The parsed configuration returned by `parse_config`:
`restricted_rooms` as a set, plus `leave_error_message`. -/
structure ParsedConfig where
  restricted_rooms : Finset String
  leave_error_message : String
deriving DecidableEq

/-- Python `room.startswith("!")` for the single-character prefix:
the first character is `'!'`. -/
def startsWithBang (s : String) : Bool :=
  match s.data with
  | [] => false
  | c :: _ => c = '!'

/-- The per-entry check of `parse_config`'s loop:
`isinstance(room, str) and room.startswith("!")`. -/
def validRoomEntry : PyValue → Bool
  | PyValue.str s => startsWithBang s
  | _ => false

/-- The string payloads of a list of `PyValue`s all known to be strings. -/
def stringsOf (l : List PyValue) : List String :=
  l.filterMap (fun v => match v with | PyValue.str s => some s | _ => Option.none)

/-- Embeds `RestrictionModule.parse_config`: validate `restricted_rooms`
(defaulting to `[]`) as a list of `!`-prefixed strings and
`leave_error_message` (with its English default) as a string, raising
`ConfigError` (modelled as `Except.error` with the message) otherwise;
on success store the rooms as a set. -/
def parse_config (config : ConfigDict) : Except String ParsedConfig :=
  match (config.lookup "restricted_rooms").getD (PyValue.list []) with
  | PyValue.list rooms =>
    if rooms.all validRoomEntry then
      match (config.lookup "leave_error_message").getD
          (PyValue.str "You are not allowed to leave this room.") with
      | PyValue.str msg =>
        Except.ok ⟨(stringsOf rooms).toFinset, msg⟩
      | _ => Except.error "leave_error_message must be a string"
    else
      Except.error
        "Each entry in restricted_rooms must be a valid room ID starting with a bang"
  | _ => Except.error "restricted_rooms must be a list of strings"

/-- A membership-change event as consumed by `check_event_allowed`:
type, room, sender, state key and content dict. -/
structure Event where
  type : String
  room_id : String
  sender : String
  state_key : String
  content : List (String × String)
deriving DecidableEq, Repr

/-- The `SynapseError(403, msg, errcode=Codes.FORBIDDEN)` raised by the
leave block. -/
structure SynapseError where
  code : Nat
  msg : String
  errcode : String
deriving DecidableEq, Repr

/-- Embeds `RestrictionModule.check_event_allowed`: pass every event through
unchanged except a self-leave of a restricted room by a local user, which
raises a 403 `Forbidden` with the configured message.  `isMine` is the
host's `api.is_mine` collaborator. -/
def check_event_allowed (cfg : ParsedConfig) (isMine : String → Bool)
    (event : Event) : Except SynapseError Event :=
  if event.type ≠ "m.room.member" then Except.ok event
  else if event.content.lookup "membership" ≠ some "leave" then Except.ok event
  else if event.room_id ∉ cfg.restricted_rooms then Except.ok event
  else if event.sender = event.state_key ∧ isMine event.sender then
    Except.error ⟨403, cfg.leave_error_message, "M_FORBIDDEN"⟩
  else Except.ok event

/-- Embeds `RestrictionModule.check_can_deactivate_user`: returns `by_admin`. -/
def check_can_deactivate_user (user_id : String) (by_admin : Bool) : Bool :=
  by_admin

end RestrictionModule

namespace UserRestrictions

/-- Rules that all yield `NoDecision` for `(u, p)` are skipped by the
evaluation loop. -/
theorem evalRulesDefault_skip (pre rest : List Rule) (dd : List String)
    (u p : String) (h : ∀ r ∈ pre, r u p = RuleResult.NoDecision) :
    evalRulesDefault (pre ++ rest) dd u p = evalRulesDefault rest dd u p := by
  induction pre with
  | nil => rfl
  | cons r rs ih =>
    have hr : r u p = RuleResult.NoDecision := h r (by simp)
    simp only [List.cons_append, evalRulesDefault, hr]
    exact ih (fun r' hr' => h r' (by simp [hr']))

/-- When every rule yields `NoDecision` for `(u, p)`, the loop falls
through to the `default_deny` check. -/
theorem evalRulesDefault_no_decision (rules : List Rule) (dd : List String)
    (u p : String) (h : ∀ r ∈ rules, r u p = RuleResult.NoDecision) :
    evalRulesDefault rules dd u p = if p ∈ dd then false else true := by
  induction rules with
  | nil => rfl
  | cons r rs ih =>
    simp only [evalRulesDefault, h r (by simp)]
    exact ih (fun r' hr' => h r' (by simp [hr']))

/-- For a permission in the catalog, `_apply_rules` returns the loop
result and never raises. -/
theorem applyRules_recognized (cfg : UserRestrictionsModuleConfig)
    (u p : String) (hp : p ∈ ALL_UNDERSTOOD_PERMISSIONS) :
    applyRules cfg u p
      = Except.ok (evalRulesDefault cfg.rules cfg.default_deny u p) := by
  simp [applyRules, hp]

/-- `afterFirstColon` fails exactly on character lists without a colon. -/
theorem afterFirstColon_eq_none (cs : List Char) :
    afterFirstColon cs = none ↔ ':' ∉ cs := by
  induction cs with
  | nil => simp [afterFirstColon]
  | cons c cs ih =>
    by_cases hc : c = ':'
    · subst hc
      simp [afterFirstColon]
    · simp only [afterFirstColon, if_neg hc, ih, List.mem_cons]
      constructor
      · rintro hnot (h | h)
        · exact hc h.symm
        · exact hnot h
      · intro hnot h
        exact hnot (Or.inr h)

/-- C1: `apply_rules(user_id, permission)` raises for a permission
outside the closed catalog; for a recognized permission it is
first-match-wins over the rule list — given any decomposition of the rule
list whose earlier rules all yield `NoDecision`, the first deciding rule
fixes the result (`Allow` gives `true`, `Deny` gives `false`) — and when
every rule yields `NoDecision` (in particular when the rule list is
empty) the result is `false` iff the permission is in `default_deny`,
else `true`. -/
theorem applyRules_spec (cfg : UserRestrictionsModuleConfig) (u p : String) :
    (p ∉ ALL_UNDERSTOOD_PERMISSIONS →
        applyRules cfg u p = Except.error PyErr.valueError)
    ∧ (p ∈ ALL_UNDERSTOOD_PERMISSIONS →
        (∀ pre r post, cfg.rules = pre ++ r :: post →
            (∀ r' ∈ pre, r' u p = RuleResult.NoDecision) →
            (r u p = RuleResult.Allow → applyRules cfg u p = Except.ok true)
            ∧ (r u p = RuleResult.Deny → applyRules cfg u p = Except.ok false))
        ∧ ((∀ r ∈ cfg.rules, r u p = RuleResult.NoDecision) →
            applyRules cfg u p
              = Except.ok (if p ∈ cfg.default_deny then false else true))) := by
  refine ⟨fun hp => by simp [applyRules, hp], fun hp => ⟨?_, ?_⟩⟩
  · intro pre r post hsplit hpre
    have hrw := applyRules_recognized cfg u p hp
    rw [hsplit] at hrw
    rw [evalRulesDefault_skip pre (r :: post) cfg.default_deny u p hpre] at hrw
    constructor <;> intro hr <;>
      simpa [evalRulesDefault, hr] using hrw
  · intro hall
    rw [applyRules_recognized cfg u p hp,
        evalRulesDefault_no_decision cfg.rules cfg.default_deny u p hall]

/-- A rule that denies every `(user, permission)` pair, used as a
concrete witness input. -/
def denyAllRule : Rule := fun _ _ => RuleResult.Deny

/-- A rule that allows exactly the user `"@x:h"`, used as a concrete
witness input. -/
def allowXRule : Rule := fun u _ =>
  if u = "@x:h" then RuleResult.Allow else RuleResult.NoDecision

/-- Witness for C1: with a deny-all rule first, `apply_rules` returns
`false` at a recognized permission. -/
theorem applyRules_spec_witness :
    applyRules ⟨[denyAllRule], [], []⟩ "@a:x" INVITE = Except.ok false :=
  (((applyRules_spec ⟨[denyAllRule], [], []⟩ "@a:x" INVITE).2 (by decide)).1
      [] denyAllRule [] rfl (fun r hr => absurd hr (List.not_mem_nil r))).2 rfl

/-- C2: rule evaluation is first-match-wins — with a first rule denying
every pair and a second rule allowing user `X`, `apply_rules(X, p)` is
`false` for every recognized permission `p`; the later Allow rule is
unreachable. -/
theorem applyRules_first_match (r1 r2 : Rule) (X p : String)
    (dd lh : List String)
    (hdeny : ∀ u q, r1 u q = RuleResult.Deny)
    (hallow : ∀ q, r2 X q = RuleResult.Allow)
    (hp : p ∈ ALL_UNDERSTOOD_PERMISSIONS) :
    applyRules ⟨[r1, r2], dd, lh⟩ X p = Except.ok false := by
  rw [applyRules_recognized _ _ _ hp]
  simp [evalRulesDefault, hdeny]

/-- Witness for C2: the Deny-all/Allow-user pair at a concrete user and
permission. -/
theorem applyRules_first_match_witness :
    applyRules ⟨[denyAllRule, allowXRule], [], []⟩ "@x:h" INVITE
      = Except.ok false :=
  applyRules_first_match denyAllRule allowXRule "@x:h" INVITE [] []
    (fun _ _ => rfl) (fun _ => by simp [allowXRule]) (by decide)

end UserRestrictions

namespace UserRestrictions

/-- C3: `may_invite` follows the 4-step short-circuit decision tree over
`apply_rules` queries, and `room_id` never influences the result. -/
theorem mayInvite_spec (cfg : UserRestrictionsModuleConfig)
    (inviter invitee room_id : String) :
    (∀ room_id2,
        mayInvite cfg inviter invitee room_id
          = mayInvite cfg inviter invitee room_id2)
    ∧ (applyRules cfg inviter INVITE = Except.ok false →
        mayInvite cfg inviter invitee room_id = Except.ok false)
    ∧ (applyRules cfg inviter INVITE = Except.ok true →
        applyRules cfg inviter INVITE_ALL = Except.ok true →
        mayInvite cfg inviter invitee room_id = Except.ok true)
    ∧ (applyRules cfg inviter INVITE = Except.ok true →
        applyRules cfg inviter INVITE_ALL = Except.ok false →
        applyRules cfg invitee RECEIVE_ALL_INVITES = Except.ok true →
        mayInvite cfg inviter invitee room_id = Except.ok true)
    ∧ (applyRules cfg inviter INVITE = Except.ok true →
        applyRules cfg inviter INVITE_ALL = Except.ok false →
        applyRules cfg invitee RECEIVE_ALL_INVITES = Except.ok false →
        applyRules cfg invitee RECEIVE_INVITES = Except.ok true →
        mayInvite cfg inviter invitee room_id
          = (match getDomain inviter with
             | some d =>
               Except.ok (if d ∈ cfg.local_homeservers then true else false)
             | none => Except.error PyErr.indexError))
    ∧ (applyRules cfg inviter INVITE = Except.ok true →
        applyRules cfg inviter INVITE_ALL = Except.ok false →
        applyRules cfg invitee RECEIVE_ALL_INVITES = Except.ok false →
        applyRules cfg invitee RECEIVE_INVITES = Except.ok false →
        mayInvite cfg inviter invitee room_id = Except.ok false) := by
  refine ⟨fun _ => rfl, ?_, ?_, ?_, ?_, ?_⟩
  · intro h1
    simp [mayInvite, h1]
  · intro h1 h2
    simp [mayInvite, h1, h2]
  · intro h1 h2 h3
    simp [mayInvite, h1, h2, h3]
  · intro h1 h2 h3 h4
    simp [mayInvite, h1, h2, h3, h4]
  · intro h1 h2 h3 h4
    simp [mayInvite, h1, h2, h3, h4]

/-- A configuration whose rule list is empty and that default-denies the
baseline invite permission, used as a concrete witness input. -/
def cfgInviteDenied : UserRestrictionsModuleConfig := ⟨[], [INVITE], []⟩

/-- Witness for C3: an inviter without baseline invite capability is
denied. -/
theorem mayInvite_spec_witness :
    mayInvite cfgInviteDenied "@a:x" "@b:y" "!r" = Except.ok false :=
  (mayInvite_spec cfgInviteDenied "@a:x" "@b:y" "!r").2.1 rfl

/-- C4: on the step-4 path (inviter has `invite` but not `invite_all`,
invitee has `receive_invites` but not `receive_all_invites`),
`may_invite` returns `true` iff the inviter's domain — the lowercased
substring after the first `:` — is a member of `local_homeservers`. -/
theorem mayInvite_step4_local_domain (cfg : UserRestrictionsModuleConfig)
    (inviter invitee room_id d : String)
    (h1 : applyRules cfg inviter INVITE = Except.ok true)
    (h2 : applyRules cfg inviter INVITE_ALL = Except.ok false)
    (h3 : applyRules cfg invitee RECEIVE_ALL_INVITES = Except.ok false)
    (h4 : applyRules cfg invitee RECEIVE_INVITES = Except.ok true)
    (hd : getDomain inviter = some d) :
    mayInvite cfg inviter invitee room_id = Except.ok true
      ↔ d ∈ cfg.local_homeservers := by
  simp only [mayInvite, h1, h2, h3, h4, hd]
  by_cases hmem : d ∈ cfg.local_homeservers <;> simp [hmem]

/-- A configuration putting every pair on the step-4 invite path, with
`local_homeservers = ["x"]`, used as a concrete witness input. -/
def cfgStep4 : UserRestrictionsModuleConfig :=
  ⟨[], [INVITE_ALL, RECEIVE_ALL_INVITES], ["x"]⟩

/-- Witness for C4: with `local_homeservers = ["x"]`, an inviter at
domain `x` is allowed and an inviter at domain `z` is denied. -/
theorem mayInvite_step4_local_domain_witness :
    mayInvite cfgStep4 "@a:x" "@b:y" "!r" = Except.ok true
    ∧ ¬ mayInvite cfgStep4 "@a:z" "@b:y" "!r" = Except.ok true :=
  ⟨(mayInvite_step4_local_domain cfgStep4 "@a:x" "@b:y" "!r" "x"
      rfl rfl rfl rfl rfl).mpr (by decide),
   fun h =>
     absurd ((mayInvite_step4_local_domain cfgStep4 "@a:z" "@b:y" "!r" "z"
       rfl rfl rfl rfl rfl).mp h) (by decide)⟩

/-- C5: if the state lookup succeeds and the `(m.room.member, user)`
entry's content has membership `"join"`, `may_join_room` returns `true`,
whatever `is_invited`, the rules and `default_deny` are. -/
theorem mayJoinRoom_already_joined (cfg : UserRestrictionsModuleConfig)
    (state : RoomState) (user room_id : String) (ev : MemberEvent)
    (is_invited : Bool)
    (hlookup : List.lookup ("m.room.member", user) state = some ev)
    (hmem : List.lookup "membership" ev.content = some "join") :
    mayJoinRoom cfg (Except.ok state) user room_id is_invited
      = Except.ok true := by
  simp [mayJoinRoom, hlookup, hmem]

/-- Witness for C5: a concrete joined user is allowed with
`is_invited = false` under a configuration that default-denies
`join_room`. -/
theorem mayJoinRoom_already_joined_witness :
    mayJoinRoom ⟨[], [JOIN_ROOM], []⟩
      (Except.ok [(("m.room.member", "@u:h"), ⟨[("membership", "join")]⟩)])
      "@u:h" "!r" false = Except.ok true :=
  mayJoinRoom_already_joined ⟨[], [JOIN_ROOM], []⟩
    [(("m.room.member", "@u:h"), ⟨[("membership", "join")]⟩)]
    "@u:h" "!r" ⟨[("membership", "join")]⟩ false rfl rfl

/-- C6: a failed state lookup is contained — `may_join_room` still
returns a value, namely `apply_rules(user, join_room) OR is_invited`,
which is the same result as a successful lookup that finds no member
entry for the user. -/
theorem mayJoinRoom_lookup_failure (cfg : UserRestrictionsModuleConfig)
    (user room_id : String) (is_invited : Bool) :
    (∃ b, applyRules cfg user JOIN_ROOM = Except.ok b
        ∧ mayJoinRoom cfg (Except.error ()) user room_id is_invited
            = Except.ok (b || is_invited))
    ∧ (∀ state : RoomState,
        List.lookup ("m.room.member", user) state = none →
        mayJoinRoom cfg (Except.error ()) user room_id is_invited
          = mayJoinRoom cfg (Except.ok state) user room_id is_invited) := by
  have hj : JOIN_ROOM ∈ ALL_UNDERSTOOD_PERMISSIONS := by decide
  refine ⟨⟨evalRulesDefault cfg.rules cfg.default_deny user JOIN_ROOM,
      applyRules_recognized cfg user JOIN_ROOM hj, ?_⟩, ?_⟩
  · simp [mayJoinRoom, applyRules_recognized cfg user JOIN_ROOM hj]
  · intro state hstate
    simp [mayJoinRoom, hstate]

/-- Witness for C6: with an empty state map, the failed-lookup decision
coincides with the successful not-joined decision. -/
theorem mayJoinRoom_lookup_failure_witness :
    mayJoinRoom cfgStep4 (Except.error ()) "@u:h" "!r" false
      = mayJoinRoom cfgStep4 (Except.ok []) "@u:h" "!r" false :=
  (mayJoinRoom_lookup_failure cfgStep4 "@u:h" "!r" false).2 [] rfl

end UserRestrictions

namespace RestrictionModule

/-- C7: `check_event_allowed` raises the 403 Forbidden error carrying the
configured `leave_error_message` exactly when the event is an
`m.room.member` event with membership `"leave"` in a restricted room
whose sender equals its state key and is local; in every other case the
input event is returned unchanged. -/
theorem check_event_allowed_spec (cfg : ParsedConfig)
    (isMine : String → Bool) (event : Event) :
    check_event_allowed cfg isMine event =
      if event.type = "m.room.member"
          ∧ List.lookup "membership" event.content = some "leave"
          ∧ event.room_id ∈ cfg.restricted_rooms
          ∧ event.sender = event.state_key
          ∧ isMine event.sender = true then
        Except.error ⟨403, cfg.leave_error_message, "M_FORBIDDEN"⟩
      else Except.ok event := by
  by_cases h1 : event.type = "m.room.member" <;>
  by_cases h2 : List.lookup "membership" event.content = some "leave" <;>
  by_cases h3 : event.room_id ∈ cfg.restricted_rooms <;>
  by_cases h4 : event.sender = event.state_key <;>
  by_cases h5 : isMine event.sender = true <;>
  simp [check_event_allowed, h1, h2, h3, h4, h5]

/-- C8: `check_can_deactivate_user` returns exactly `by_admin`,
independently of the user. -/
theorem check_can_deactivate_user_spec (user_id : String) (by_admin : Bool) :
    check_can_deactivate_user user_id by_admin = by_admin
    ∧ ∀ user_id2,
        check_can_deactivate_user user_id by_admin
          = check_can_deactivate_user user_id2 by_admin :=
  ⟨rfl, fun _ => rfl⟩

/-- C9: `parse_config` raises a configuration error iff
`restricted_rooms` (defaulting to `[]`) is not a list, or an entry of it
is not a string starting with `'!'`, or `leave_error_message`
(defaulting to the fixed English message) is not a string; on success it
returns the rooms as a set together with the message. -/
theorem parse_config_spec (config : ConfigDict) :
    ((∃ e, parse_config config = Except.error e) ↔
      ((¬ ∃ l, (List.lookup "restricted_rooms" config).getD (PyValue.list [])
            = PyValue.list l)
       ∨ (∃ l, (List.lookup "restricted_rooms" config).getD (PyValue.list [])
            = PyValue.list l ∧ ∃ v ∈ l, validRoomEntry v = false)
       ∨ ¬ ∃ s, (List.lookup "leave_error_message" config).getD
            (PyValue.str "You are not allowed to leave this room.")
            = PyValue.str s))
    ∧ (∀ l s,
        (List.lookup "restricted_rooms" config).getD (PyValue.list [])
          = PyValue.list l →
        (List.lookup "leave_error_message" config).getD
            (PyValue.str "You are not allowed to leave this room.")
          = PyValue.str s →
        (∀ v ∈ l, validRoomEntry v = true) →
        parse_config config = Except.ok ⟨(stringsOf l).toFinset, s⟩) := by
  constructor
  · cases hrr : (List.lookup "restricted_rooms" config).getD (PyValue.list []) with
    | list rooms =>
      cases hall : rooms.all validRoomEntry with
      | true =>
        cases hlem : (List.lookup "leave_error_message" config).getD
            (PyValue.str "You are not allowed to leave this room.") with
        | str s =>
          simp only [parse_config, hrr, hall, hlem, if_true]
          constructor
          · rintro ⟨e, he⟩
            exact absurd he (by simp)
          · rintro (hbad | ⟨l, hl, v, hv, hfalse⟩ | hbad)
            · exact absurd ⟨rooms, rfl⟩ hbad
            · cases hl
              have := List.all_eq_true.mp hall v hv
              rw [this] at hfalse
              exact absurd hfalse (by simp)
            · exact absurd ⟨s, rfl⟩ hbad
        | int n =>
          simp only [parse_config, hrr, hall, hlem, if_true]
          exact ⟨fun _ => Or.inr (Or.inr (by rintro ⟨s, hs⟩; cases hs)),
            fun _ => ⟨_, rfl⟩⟩
        | bool b =>
          simp only [parse_config, hrr, hall, hlem, if_true]
          exact ⟨fun _ => Or.inr (Or.inr (by rintro ⟨s, hs⟩; cases hs)),
            fun _ => ⟨_, rfl⟩⟩
        | list l =>
          simp only [parse_config, hrr, hall, hlem, if_true]
          exact ⟨fun _ => Or.inr (Or.inr (by rintro ⟨s, hs⟩; cases hs)),
            fun _ => ⟨_, rfl⟩⟩
        | none =>
          simp only [parse_config, hrr, hall, hlem, if_true]
          exact ⟨fun _ => Or.inr (Or.inr (by rintro ⟨s, hs⟩; cases hs)),
            fun _ => ⟨_, rfl⟩⟩
      | false =>
        simp only [parse_config, hrr, hall, Bool.false_eq_true, if_false]
        refine ⟨fun _ => Or.inr (Or.inl ⟨rooms, rfl, ?_⟩), fun _ => ⟨_, rfl⟩⟩
        simp [List.all_eq_true] at hall
        obtain ⟨v, hv, hfalse⟩ := hall
        exact ⟨v, hv, by simpa using hfalse⟩
    | str s =>
      simp only [parse_config, hrr]
      exact ⟨fun _ => Or.inl (by rintro ⟨l, hl⟩; cases hl), fun _ => ⟨_, rfl⟩⟩
    | int n =>
      simp only [parse_config, hrr]
      exact ⟨fun _ => Or.inl (by rintro ⟨l, hl⟩; cases hl), fun _ => ⟨_, rfl⟩⟩
    | bool b =>
      simp only [parse_config, hrr]
      exact ⟨fun _ => Or.inl (by rintro ⟨l, hl⟩; cases hl), fun _ => ⟨_, rfl⟩⟩
    | none =>
      simp only [parse_config, hrr]
      exact ⟨fun _ => Or.inl (by rintro ⟨l, hl⟩; cases hl), fun _ => ⟨_, rfl⟩⟩
  · intro l s hrr hlem hall
    simp only [parse_config, hrr, hlem, List.all_eq_true.mpr hall, if_true]

end RestrictionModule

namespace RestrictionModule

/-- A well-formed raw configuration dict, used as a concrete witness
input. -/
def cfgDictGood : ConfigDict :=
  [("restricted_rooms", PyValue.list [PyValue.str "!a:h"]),
   ("leave_error_message", PyValue.str "bye")]

/-- Witness for C9: a valid configuration parses into the room set and
the configured message. -/
theorem parse_config_spec_witness :
    parse_config cfgDictGood
      = Except.ok ⟨(stringsOf [PyValue.str "!a:h"]).toFinset, "bye"⟩ :=
  (parse_config_spec cfgDictGood).2 [PyValue.str "!a:h"] "bye" rfl rfl
    (by decide)

end RestrictionModule

namespace UserRestrictions

/-- C10: `may_invite` cannot hit the domain-extraction `IndexError` for
any inviter ID containing a `:`; but when evaluation reaches step 4 and
the inviter ID contains no `:`, the uncaught `IndexError` is raised
instead of a verdict. -/
theorem mayInvite_total_iff_colon :
    (∀ inviter : String, ':' ∈ inviter.data →
      ∀ (cfg : UserRestrictionsModuleConfig) (invitee room_id : String),
        ∃ b, mayInvite cfg inviter invitee room_id = Except.ok b)
    ∧ (∀ (cfg : UserRestrictionsModuleConfig)
        (inviter invitee room_id : String),
        ':' ∉ inviter.data →
        applyRules cfg inviter INVITE = Except.ok true →
        applyRules cfg inviter INVITE_ALL = Except.ok false →
        applyRules cfg invitee RECEIVE_ALL_INVITES = Except.ok false →
        applyRules cfg invitee RECEIVE_INVITES = Except.ok true →
        mayInvite cfg inviter invitee room_id
          = Except.error PyErr.indexError) := by
  constructor
  · intro inviter hcolon cfg invitee room_id
    obtain ⟨tl, htl⟩ : ∃ tl, afterFirstColon inviter.data = some tl := by
      cases h : afterFirstColon inviter.data with
      | some tl => exact ⟨tl, rfl⟩
      | none => exact absurd hcolon ((afterFirstColon_eq_none _).mp h)
    have hdom : getDomain inviter
        = some (String.mk (tl.map Char.toLower)) := by
      simp [getDomain, htl]
    simp only [mayInvite,
      applyRules_recognized cfg inviter INVITE (by decide),
      applyRules_recognized cfg inviter INVITE_ALL (by decide),
      applyRules_recognized cfg invitee RECEIVE_ALL_INVITES (by decide),
      applyRules_recognized cfg invitee RECEIVE_INVITES (by decide), hdom]
    split_ifs <;> exact ⟨_, rfl⟩
  · intro cfg inviter invitee room_id hcolon h1 h2 h3 h4
    have hdom : getDomain inviter = none := by
      simp [getDomain, (afterFirstColon_eq_none _).mpr hcolon]
    simp [mayInvite, h1, h2, h3, h4, hdom]

/-- Witness for C10: a colon-bearing inviter always gets a verdict on
the step-4 configuration; a colon-free inviter on the step-4 path hits
the `IndexError`. -/
theorem mayInvite_total_iff_colon_witness :
    (∃ b, mayInvite cfgStep4 "@a:x" "@b:y" "!r" = Except.ok b)
    ∧ mayInvite cfgStep4 "noColon" "@b:y" "!r"
        = Except.error PyErr.indexError :=
  ⟨mayInvite_total_iff_colon.1 "@a:x" (by decide) cfgStep4 "@b:y" "!r",
   mayInvite_total_iff_colon.2 cfgStep4 "noColon" "@b:y" "!r" (by decide)
     rfl rfl rfl rfl⟩

end UserRestrictions
